import Mathlib

/-!
Shallow embedding of `src/demo.py` (flask-demos): the idempotent
visitor-registration workflow.  The `users` table is modelled as a list of
rows plus an auto-increment counter, the Flask session as a record of the
two keys the handler touches (`name`, `known`), and each route handler as a
pure function from request data and application state to the new state and
an HTTP response value.
-/

namespace Demo

/-- A row of the `users` table (demo.py lines 75-83): surrogate integer key,
username (declared unique), and the never-populated `role_id`. -/
structure User where
  id : Nat
  username : String
  roleId : Option Nat
deriving DecidableEq, Repr

/-- The persistent store: the `users` table together with the
auto-increment counter SQLite uses for the integer primary key. -/
structure Store where
  users : List User
  nextId : Nat
deriving DecidableEq, Repr

/-- An empty database, as created on first run. -/
def emptyStore : Store := ⟨[], 1⟩

/-- Session state: the two keys the handler reads or writes
(`session['name']`, `session['known']`, demo.py lines 145-151). -/
structure Session where
  name : Option String
  known : Option Bool
deriving DecidableEq, Repr

/-- A fresh browser session: neither key present. -/
def freshSession : Session := ⟨none, none⟩

/-- Whole application state threaded through a request. -/
structure AppState where
  store : Store
  session : Session
deriving DecidableEq, Repr

/-- Exact-match lookup
`User.query.filter_by(username=...).first()` (demo.py line 137). -/
def findByName (st : Store) (n : String) : Option User :=
  st.users.find? (fun u => u.username == n)

/-- Insert of a freshly constructed `User(username=...)` followed by a
successful commit (demo.py lines 142-144): the row is appended with the next
surrogate key and `role_id` unset. -/
def addUser (st : Store) (n : String) : Store :=
  { users := st.users ++ [⟨st.nextId, n, none⟩], nextId := st.nextId + 1 }

/-- Commit of an insert under the UNIQUE constraint on `users.username`
(demo.py line 78): the commit raises an integrity error when a row with the
same username is already present, and otherwise appends the row. -/
def insertCommit (st : Store) (n : String) : Except String Store :=
  if st.users.any (fun u => u.username == n) then
    Except.error "UNIQUE constraint failed: users.username"
  else
    Except.ok (addUser st n)

/-- HTTP method of a request to the index route. -/
inductive Method where
  | get
  | post
deriving DecidableEq, BEq, Repr

/-- The `DataRequired` validator attached to the name field (demo.py
line 96): fails when the field is absent or its data is empty after
stripping whitespace, i.e. passes exactly when some character of the data
is not whitespace. -/
def dataRequired : Option String → Bool
  | none => false
  | some s => s.data.any (fun c => !c.isWhitespace)

/-- Validity test `form.validate_on_submit()` (demo.py line 136): true
exactly when the request is a POST and every validator passes. -/
def validateOnSubmit (m : Method) (d : Option String) : Bool :=
  (m == Method.post) && dataRequired d

/-- A response: an HTTP redirect, the rendered index page (carrying the
form data handed back, the session name, the known flag and the current
time), or the rendered user page addressed to a name. -/
inductive Response where
  | redirect (target : String)
  | renderIndex (formData : Option String) (name : Option String)
      (known : Bool) (currentTime : Nat)
  | renderUser (name : String)
deriving DecidableEq, Repr

/-- The lookup-or-create core of the valid-POST path (demo.py
lines 137-144), the spec's `registerOrRecognize`: look the name up; if
absent, insert and commit a new row and report `isNewlyCreated = true`;
if present, leave the store alone and report `false`. -/
def registerOrRecognize (st : Store) (n : String) : Store × Bool :=
  match findByName st n with
  | none => (addUser st n, true)
  | some _ => (st, false)

/-- The index handler (demo.py lines 133-157).  On a valid POST it runs the
lookup-or-create logic, sets `session['known']` to the inverted new-visitor
flag and `session['name']` to the submitted name, and redirects to `/`.
Otherwise it renders `index.html` from the current session values and the
current time. -/
def index (m : Method) (formData : Option String) (now : Nat)
    (s : AppState) : AppState × Response :=
  match formData, validateOnSubmit m formData with
  | some n, true =>
    match findByName s.store n with
    | none =>
        ({ store := addUser s.store n,
           session := { name := some n, known := some false } },
         Response.redirect "/")
    | some _ =>
        ({ s with session := { name := some n, known := some true } },
         Response.redirect "/")
  | _, _ =>
      (s, Response.renderIndex formData s.session.name
            (s.session.known.getD false) now)

/-- The `/user/<name>` handler (demo.py lines 161-163): renders `user.html`
addressed to the path parameter, touching neither store nor session. -/
def user (name : String) (s : AppState) : AppState × Response :=
  (s, Response.renderUser name)

/-- A request to one of the two routes. -/
inductive Request where
  | toIndex (m : Method) (formData : Option String) (now : Nat)
  | toUser (name : String)
deriving DecidableEq, Repr

/-- Dispatch of a request to its handler. -/
def handle : Request → AppState → AppState × Response
  | Request.toIndex m d now, s => index m d now s
  | Request.toUser n, s => user n s

/-- Sequential execution of a list of requests. -/
def run : List Request → AppState → AppState
  | [], s => s
  | r :: rs, s => run rs (handle r s).1

/-- Number of rows of the `users` table carrying a given username. -/
def countName (st : Store) (n : String) : Nat :=
  (st.users.filter (fun u => u.username == n)).length

/-- Iterated application of `registerOrRecognize` with a fixed name. -/
def regIter : Nat → Store → String → Store
  | 0, st, _ => st
  | Nat.succ k, st, n => regIter k (registerOrRecognize st n).1 n

/-- Application of `registerOrRecognize` for each name of a list in turn. -/
def regMany : Store → List String → Store
  | st, [] => st
  | st, n :: ns => regMany (registerOrRecognize st n).1 ns

/-- The index handler with the commit's fallibility made explicit (demo.py
line 144 has no surrounding try/except): when `commitFails` is true the
commit of the new row raises, the transaction is rolled back, and the
exception propagates out of the handler BEFORE either session write on
lines 145 and 151, so neither session key changes and no redirect is
produced. -/
def indexF (commitFails : Bool) (m : Method) (formData : Option String)
    (now : Nat) (s : AppState) : AppState × Except String Response :=
  match formData, validateOnSubmit m formData with
  | some n, true =>
    match findByName s.store n with
    | none =>
        if commitFails then
          (s, Except.error "IntegrityError")
        else
          ({ store := addUser s.store n,
             session := { name := some n, known := some false } },
           Except.ok (Response.redirect "/"))
    | some _ =>
        ({ s with session := { name := some n, known := some true } },
         Except.ok (Response.redirect "/"))
  | _, _ =>
      (s, Except.ok (Response.renderIndex formData s.session.name
            (s.session.known.getD false) now))

/-- One valid POST of name `n` whose lookup (demo.py line 137) ran against
`lookupStore` while its insert commits against `commitStore`: the two differ
when another request committed between the lookup and the commit. -/
def postStep (lookupStore commitStore : Store) (n : String) :
    Store × Except String Bool :=
  match findByName lookupStore n with
  | some _ => (commitStore, Except.ok false)
  | none =>
    match insertCommit commitStore n with
    | Except.ok st => (st, Except.ok true)
    | Except.error e => (commitStore, Except.error e)

/-- Two concurrent POSTs of the same name interleaved so that both lookups
run against the initial store before either commit: request A commits
first, request B's commit then runs against A's result.  Returns the final
store and each request's outcome (`isNewlyCreated`, or the propagated
commit error). -/
def race (s0 : Store) (n : String) :
    Store × (Except String Bool × Except String Bool) :=
  let a := postStep s0 s0 n
  let b := postStep s0 a.1 n
  (b.1, (a.2, b.2))

/-! Helper lemmas shared by the claim theorems. -/

/-- Characterisation of a failed lookup: no row carries the username. -/
theorem findByName_none_iff (st : Store) (n : String) :
    findByName st n = none ↔ ∀ u ∈ st.users, u.username ≠ n := by
  unfold findByName
  rw [List.find?_eq_none]
  simp

/-- On a successful lookup, `registerOrRecognize` leaves the store alone
and reports the visitor as not newly created. -/
theorem reg_of_found (st : Store) (n : String) (u : User)
    (h : findByName st n = some u) :
    registerOrRecognize st n = (st, false) := by
  unfold registerOrRecognize
  rw [h]

/-- On a failed lookup, `registerOrRecognize` inserts a fresh row and
reports the visitor as newly created. -/
theorem reg_of_absent (st : Store) (n : String)
    (h : findByName st n = none) :
    registerOrRecognize st n = (addUser st n, true) := by
  unfold registerOrRecognize
  rw [h]

/-- Variant of `reg_of_found` keyed on `Option.isSome`. -/
theorem reg_of_isSome (st : Store) (n : String)
    (h : (findByName st n).isSome = true) :
    registerOrRecognize st n = (st, false) := by
  cases hf : findByName st n with
  | none => rw [hf] at h; simp at h
  | some u => exact reg_of_found st n u hf

/-- A row carrying the username makes the lookup succeed. -/
theorem findByName_isSome_of_mem (st : Store) (n : String) (u : User)
    (hu : u ∈ st.users) (hn : u.username = n) :
    (findByName st n).isSome = true := by
  unfold findByName
  rw [List.find?_isSome]
  exact ⟨u, hu, by simp [hn]⟩

/-- The freshly inserted row is a member of the store after `addUser`. -/
theorem mem_addUser_self (st : Store) (n : String) :
    (⟨st.nextId, n, none⟩ : User) ∈ (addUser st n).users := by
  simp [addUser]

/-- Existing rows survive `addUser`. -/
theorem mem_addUser (st : Store) (n : String) (u : User)
    (hu : u ∈ st.users) : u ∈ (addUser st n).users := by
  simp [addUser]
  exact Or.inl hu

/-- Existing rows survive `registerOrRecognize`. -/
theorem mem_reg (st : Store) (m : String) (u : User)
    (hu : u ∈ st.users) : u ∈ (registerOrRecognize st m).1.users := by
  unfold registerOrRecognize
  cases findByName st m with
  | none => exact mem_addUser st m u hu
  | some v => exact hu

/-- Existing rows survive any sequence of registrations. -/
theorem mem_regMany (ms : List String) (st : Store) (u : User)
    (hu : u ∈ st.users) : u ∈ (regMany st ms).users := by
  induction ms generalizing st with
  | nil => exact hu
  | cons m ms ih => exact ih (registerOrRecognize st m).1 (mem_reg st m u hu)

/-- A store in which the lookup fails holds no row with that username. -/
theorem countName_eq_zero (st : Store) (n : String)
    (h : findByName st n = none) : countName st n = 0 := by
  unfold countName
  rw [List.length_eq_zero, List.filter_eq_nil_iff]
  intro u hu
  simp [(findByName_none_iff st n).mp h u hu]

/-- Inserting a row with the username raises its count by one. -/
theorem countName_addUser (st : Store) (n : String) :
    countName (addUser st n) n = countName st n + 1 := by
  unfold countName addUser
  simp

/-- A positive count makes the lookup succeed. -/
theorem isSome_of_countName_pos (st : Store) (n : String)
    (h : 0 < countName st n) : (findByName st n).isSome = true := by
  unfold countName at h
  rw [List.length_pos] at h
  obtain ⟨u, hu⟩ := List.exists_mem_of_ne_nil _ h
  have hmem := List.mem_filter.mp hu
  exact findByName_isSome_of_mem st n u hmem.1 (by simpa using hmem.2)

/-- Once the lookup succeeds, iterating `registerOrRecognize` is the
identity on the store. -/
theorem regIter_of_isSome (k : Nat) (st : Store) (n : String)
    (h : (findByName st n).isSome = true) : regIter k st n = st := by
  induction k with
  | zero => rfl
  | succ k ih =>
      show regIter k (registerOrRecognize st n).1 n = st
      rw [reg_of_isSome st n h]
      exact ih

/-! Claim theorems. -/

/-- C1: for every non-empty display name never submitted before, the first
call to `registerOrRecognize` reports `isNewlyCreated = true`, and every
subsequent call with the same name — after any further registrations of any
names — reports `isNewlyCreated = false`. -/
theorem claim1_first_submission_newly_created (st : Store) (n : String)
    (hne : dataRequired (some n) = true)
    (hnew : findByName st n = none) :
    (registerOrRecognize st n).2 = true ∧
    ∀ ms : List String,
      (registerOrRecognize
        (regMany (registerOrRecognize st n).1 ms) n).2 = false := by
  rw [reg_of_absent st n hnew]
  refine ⟨rfl, fun ms => ?_⟩
  have hmem : (⟨st.nextId, n, none⟩ : User) ∈ (regMany (addUser st n) ms).users :=
    mem_regMany ms (addUser st n) _ (mem_addUser_self st n)
  have hs := findByName_isSome_of_mem _ n _ hmem rfl
  rw [reg_of_isSome _ n hs]

/-- Witness for C1 at the concrete name "Alice" on the empty store. -/
theorem claim1_witness :
    (registerOrRecognize emptyStore "Alice").2 = true ∧
    ∀ ms : List String,
      (registerOrRecognize
        (regMany (registerOrRecognize emptyStore "Alice").1 ms) "Alice").2 = false :=
  claim1_first_submission_newly_created emptyStore "Alice" (by decide) rfl

/-- C2: registration is idempotent — for every non-empty name not yet in
the store, after the first call to `registerOrRecognize` any number of
further calls with the same name leave exactly one persisted row carrying
that username. -/
theorem claim2_registration_idempotent (st : Store) (n : String)
    (hne : dataRequired (some n) = true)
    (hnew : findByName st n = none) :
    ∀ k : Nat, countName (regIter (k + 1) st n) n = 1 := by
  intro k
  show countName (regIter k (registerOrRecognize st n).1 n) n = 1
  rw [reg_of_absent st n hnew]
  have hs : (findByName (addUser st n) n).isSome = true :=
    findByName_isSome_of_mem _ n _ (mem_addUser_self st n) rfl
  rw [regIter_of_isSome k _ n hs, countName_addUser,
      countName_eq_zero st n hnew]

/-- Witness for C2 at the concrete name "Alice" on the empty store. -/
theorem claim2_witness :
    countName (regIter 3 emptyStore "Alice") "Alice" = 1 :=
  claim2_registration_idempotent emptyStore "Alice" (by decide) rfl 2

/-- C4: frame condition on the found path — when a row for the name already
exists, `registerOrRecognize` reports `isNewlyCreated = false` and the
store, hence the `users` table, is unchanged. -/
theorem claim4_found_no_mutation (st : Store) (n : String) (u : User)
    (h : findByName st n = some u) :
    registerOrRecognize st n = (st, false) :=
  reg_of_found st n u h

/-- Witness for C4 on a one-row store holding "Alice". -/
theorem claim4_witness :
    registerOrRecognize ⟨[⟨1, "Alice", none⟩], 2⟩ "Alice" =
      (⟨[⟨1, "Alice", none⟩], 2⟩, false) :=
  claim4_found_no_mutation ⟨[⟨1, "Alice", none⟩], 2⟩ "Alice" ⟨1, "Alice", none⟩ rfl

/-- C3: every POST to `/` with valid form data writes the submitted name
into the session under `name`, writes the inverted new-visitor flag under
`known` (known = not isNewlyCreated), and answers with an HTTP redirect
back to `/`, not a rendered page. -/
theorem claim3_valid_post_session_and_redirect (n : String) (now : Nat)
    (s : AppState) (hv : validateOnSubmit Method.post (some n) = true) :
    (index Method.post (some n) now s).1.session.name = some n ∧
    (index Method.post (some n) now s).1.session.known =
      some (!(registerOrRecognize s.store n).2) ∧
    (index Method.post (some n) now s).2 = Response.redirect "/" := by
  unfold index
  rw [hv]
  cases hf : findByName s.store n with
  | none => rw [reg_of_absent s.store n hf]; simp [hf]
  | some u => rw [reg_of_found s.store n u hf]; simp [hf]

/-- Witness for C3: the name "Alice" POSTed on a fresh state. -/
theorem claim3_witness :
    (index Method.post (some "Alice") 0 ⟨emptyStore, freshSession⟩).1.session.name
        = some "Alice" ∧
    (index Method.post (some "Alice") 0 ⟨emptyStore, freshSession⟩).1.session.known
        = some (!(registerOrRecognize emptyStore "Alice").2) ∧
    (index Method.post (some "Alice") 0 ⟨emptyStore, freshSession⟩).2
        = Response.redirect "/" :=
  claim3_valid_post_session_and_redirect "Alice" 0 ⟨emptyStore, freshSession⟩
    (by decide)

/-- C5: a POST to `/` whose form data fails validation (in particular an
empty name, rejected by the required-field validator) performs no lookup,
no insert and no session write — the whole application state is returned
unchanged — and answers by re-rendering the page instead of redirecting. -/
theorem claim5_invalid_post_no_effect (d : Option String) (now : Nat)
    (s : AppState) (hv : dataRequired d = false) :
    index Method.post d now s =
      (s, Response.renderIndex d s.session.name
            (s.session.known.getD false) now) := by
  cases d with
  | none => rfl
  | some n =>
      unfold index
      have hvv : validateOnSubmit Method.post (some n) = false := by
        simp [validateOnSubmit, hv]
      rw [hvv]

/-- Witness for C5: the empty name POSTed on a one-row store. -/
theorem claim5_witness :
    index Method.post (some "") 0
        ⟨⟨[⟨1, "Alice", none⟩], 2⟩, freshSession⟩ =
      (⟨⟨[⟨1, "Alice", none⟩], 2⟩, freshSession⟩,
        Response.renderIndex (some "") none false 0) :=
  claim5_invalid_post_no_effect (some "") 0
    ⟨⟨[⟨1, "Alice", none⟩], 2⟩, freshSession⟩ (by decide)

/-- C7: GET `/user/<name>` answers with the rendered user page addressed to
the path parameter and leaves the whole application state — users table and
session — unchanged, with no registry interaction. -/
theorem claim7_user_route_pure (name : String) (s : AppState) :
    handle (Request.toUser name) s = (s, Response.renderUser name) :=
  rfl

/-- C9: on a fresh session in which no valid POST ever happened, GET `/`
renders the page with name = none (session key absent) and known = false
(the default supplied for the absent session key), leaving the state
unchanged. -/
theorem claim9_fresh_session_defaults (fd : Option String) (now : Nat)
    (st : Store) :
    index Method.get fd now ⟨st, freshSession⟩ =
      (⟨st, freshSession⟩, Response.renderIndex fd none false now) := by
  cases fd <;> rfl

/-- Case analysis of the index handler's effect on the store: it is either
untouched, or extended by `addUser` for a name whose lookup failed. -/
theorem index_store_cases (m : Method) (d : Option String) (now : Nat)
    (s : AppState) :
    (index m d now s).1.store = s.store ∨
    ∃ n, d = some n ∧ findByName s.store n = none ∧
      (index m d now s).1.store = addUser s.store n := by
  cases d with
  | none => left; rfl
  | some n =>
      cases hv : validateOnSubmit m (some n) with
      | false => left; unfold index; rw [hv]
      | true =>
          cases hf : findByName s.store n with
          | none =>
              right
              exact ⟨n, rfl, hf, by unfold index; rw [hv]; simp [hf]⟩
          | some u => left; unfold index; rw [hv]; simp [hf]

/-- Any single request only ever appends rows to the users table. -/
theorem handle_users_extend (r : Request) (s : AppState) :
    ∃ t, (handle r s).1.store.users = s.store.users ++ t := by
  cases r with
  | toUser n => exact ⟨[], by simp [handle, user]⟩
  | toIndex m d now =>
      rcases index_store_cases m d now s with h | ⟨n, hd, hf, h⟩
      · exact ⟨[], by simp [handle, h]⟩
      · exact ⟨[⟨s.store.nextId, n, none⟩], by simp [handle, h, addUser]⟩

/-- Any sequence of requests only ever appends rows to the users table. -/
theorem run_users_extend (rs : List Request) (s : AppState) :
    ∃ t, (run rs s).store.users = s.store.users ++ t := by
  induction rs generalizing s with
  | nil => exact ⟨[], by simp [run]⟩
  | cons r rs ih =>
      obtain ⟨t1, h1⟩ := handle_users_extend r s
      obtain ⟨t2, h2⟩ := ih (handle r s).1
      refine ⟨t1 ++ t2, ?_⟩
      show (run rs (handle r s).1).store.users = _
      rw [h2, h1, List.append_assoc]

/-- C6: the store is append-only — handling any request either leaves the
users table exactly as it was or appends a single row whose username was
absent before (the first submission of that name); in particular every row
present before any sequence of requests is still present, unmodified and in
place, afterwards. -/
theorem claim6_append_only_store :
    (∀ (r : Request) (s : AppState),
        ((handle r s).1.store.users = s.store.users ∨
          ∃ u, findByName s.store u.username = none ∧
            (handle r s).1.store.users = s.store.users ++ [u]) ∧
        ∃ t, (handle r s).1.store.users = s.store.users ++ t) ∧
    (∀ (rs : List Request) (s : AppState),
        ∃ t, (run rs s).store.users = s.store.users ++ t) := by
  refine ⟨fun r s => ⟨?_, handle_users_extend r s⟩, run_users_extend⟩
  cases r with
  | toUser n => left; rfl
  | toIndex m d now =>
      rcases index_store_cases m d now s with h | ⟨n, hd, hf, h⟩
      · left; simp [handle, h]
      · right
        exact ⟨⟨s.store.nextId, n, none⟩, hf, by simp [handle, h, addUser]⟩

/-- A failed lookup means no row at all carries the username. -/
theorem any_username_eq_false (st : Store) (n : String)
    (h : findByName st n = none) :
    (st.users.any fun u => u.username == n) = false := by
  rw [List.any_eq_false]
  intro u hu
  simp [(findByName_none_iff st n).mp h u hu]

/-- Committing an insert of an absent username succeeds. -/
theorem insertCommit_of_absent (st : Store) (n : String)
    (h : findByName st n = none) :
    insertCommit st n = Except.ok (addUser st n) := by
  unfold insertCommit
  rw [any_username_eq_false st n h]
  rfl

/-- Committing an insert of a username just inserted violates the UNIQUE
constraint. -/
theorem insertCommit_dup (st : Store) (n : String) :
    insertCommit (addUser st n) n =
      Except.error "UNIQUE constraint failed: users.username" := by
  unfold insertCommit
  have ha : ((addUser st n).users.any fun u => u.username == n) = true := by
    rw [List.any_eq_true]
    exact ⟨⟨st.nextId, n, none⟩, mem_addUser_self st n, by simp⟩
  rw [ha]
  rfl

/-- C8 counterexample: two concurrent POSTs of the new name "Bob", both
looking up before either commit, leave exactly one row, but the second
caller does NOT observe the graceful already-exists outcome — the raw
UNIQUE-constraint error propagates instead. -/
theorem claim8_counterexample :
    (race emptyStore "Bob").2.2 ≠ Except.ok false ∧
    (race emptyStore "Bob").2.2 =
      Except.error "UNIQUE constraint failed: users.username" ∧
    countName (race emptyStore "Bob").1 "Bob" = 1 :=
  ⟨fun h => Except.noConfusion h, rfl, rfl⟩

/-- C8 (amended): when two requests concurrently POST the same previously
unseen name, exactly one row for that name is persisted and the first
caller sees `isNewlyCreated = true`, but the second caller receives the
raw uniqueness-constraint fault (the handler has no recovery for it)
rather than the graceful already-exists outcome. -/
theorem claim8_amended_race_outcome (s0 : Store) (n : String)
    (h : findByName s0 n = none) :
    countName (race s0 n).1 n = 1 ∧
    (race s0 n).2.1 = Except.ok true ∧
    (race s0 n).2.2 =
      Except.error "UNIQUE constraint failed: users.username" := by
  have hstep : postStep s0 s0 n = (addUser s0 n, Except.ok true) := by
    unfold postStep
    rw [h, insertCommit_of_absent s0 n h]
  have hstep2 : postStep s0 (addUser s0 n) n =
      (addUser s0 n,
        Except.error "UNIQUE constraint failed: users.username") := by
    unfold postStep
    rw [h, insertCommit_dup s0 n]
  have h1 : countName (addUser s0 n) n = 1 := by
    rw [countName_addUser, countName_eq_zero s0 n h]
  refine ⟨?_, ?_, ?_⟩ <;> simp [race, hstep, hstep2, h1]

/-- Witness for the amended C8 at the concrete name "Carol" on the empty
store. -/
theorem claim8_witness :
    countName (race emptyStore "Carol").1 "Carol" = 1 ∧
    (race emptyStore "Carol").2.1 = Except.ok true ∧
    (race emptyStore "Carol").2.2 =
      Except.error "UNIQUE constraint failed: users.username" :=
  claim8_amended_race_outcome emptyStore "Carol" rfl

/-- Sanity check: with a succeeding commit the fallible handler agrees with
the total one. -/
theorem indexF_ok_agrees (m : Method) (d : Option String) (now : Nat)
    (s : AppState) :
    indexF false m d now s =
      ((index m d now s).1, Except.ok (index m d now s).2) := by
  cases d with
  | none => rfl
  | some n =>
      cases hv : validateOnSubmit m (some n) with
      | false => unfold indexF index; rw [hv]
      | true =>
          cases hf : findByName s.store n with
          | none => unfold indexF index; rw [hv]; simp [hf]
          | some u => unfold indexF index; rw [hv]; simp [hf]

/-- C10: on the new-name path the insert and commit precede both session
writes, so when the commit raises, the exception propagates with the
session keys `name` and `known` untouched and no redirect issued — the
session is never updated for a submission whose row was not persisted. -/
theorem claim10_commit_failure_leaves_session (n : String) (now : Nat)
    (s : AppState) (hne : dataRequired (some n) = true)
    (hnew : findByName s.store n = none) :
    indexF true Method.post (some n) now s =
      (s, Except.error "IntegrityError") := by
  unfold indexF
  have hv : validateOnSubmit Method.post (some n) = true := by
    unfold validateOnSubmit
    rw [hne]
    rfl
  rw [hv]
  simp [hnew]

/-- Witness for C10: a failing commit of "Alice" on a fresh state. -/
theorem claim10_witness :
    indexF true Method.post (some "Alice") 0 ⟨emptyStore, freshSession⟩ =
      (⟨emptyStore, freshSession⟩, Except.error "IntegrityError") :=
  claim10_commit_failure_leaves_session "Alice" 0 ⟨emptyStore, freshSession⟩
    (by decide) rfl

end Demo
